import Mathlib

/-!
Verification development for the core simulation of the Lane Leaper Runner
endless-runner (the richer variant in `src/components/game/GameEngine.tsx`).

The per-frame simulation is embedded shallowly: the React component state
(`player`, `obstacles`, `gameCoins`, `powerUps`, `particles`, the scores and
the refs) is a `Game` record, and each handler (`gameLoop`, `checkCollisions`,
`handleKeyPress`, `startGame`, ...) is a pure function `Game → Game`.
Calls to `Math.random()` are abstracted by an oracle `Rng` whose scalar draws
are rationals in `[0, 1)` (the contract of `Math.random`); numbers are
rationals (`ℚ`) for the geometry/physics and `ℕ`/`ℤ` where the source only
ever holds integers (ids, the distance accumulator, scores, health).
The two wall-clock `setTimeout` mutations of the source (clearing
invulnerability after 2000 ms, clearing the slide after 500 ms) are modelled
as separate events of the step relation that may fire at any time.
-/

/-- Game phases, from `type GameState = 'start' | 'playing' | 'paused' | 'gameOver'`. -/
inductive Phase
  | start
  | playing
  | paused
  | gameOver
deriving DecidableEq

/-- Power-up kinds, from `'shield' | 'speed' | 'magnet' | 'health'`. -/
inductive PowerUpType
  | shield
  | speed
  | magnet
  | health
deriving DecidableEq

/-- Obstacle kinds, from `'barrier' | 'train' | 'tunnel' | 'spike' | 'laser'`. -/
inductive ObstacleType
  | barrier
  | train
  | tunnel
  | spike
  | laser
deriving DecidableEq

/-- Coin kinds, from `'normal' | 'gold' | 'diamond'`. -/
inductive CoinType
  | normal
  | gold
  | diamond
deriving DecidableEq

/-- The `Player` interface of the source. `lane` is a natural number
(the source type is the union `0 | 1 | 2`; staying in `{0,1,2}` is one of the
claims, so it is not baked into the type). -/
structure Player where
  lane : ℕ
  x : ℚ
  y : ℚ
  isJumping : Bool
  isSliding : Bool
  jumpHeight : ℚ
  jumpVelocity : ℚ
  health : ℤ
  maxHealth : ℤ
  isInvulnerable : Bool
  powerUpActive : Bool
  powerUpType : Option PowerUpType
  powerUpTimer : ℤ
deriving DecidableEq

/-- The `Obstacle` interface of the source. -/
structure Obstacle where
  id : ℕ
  lane : ℕ
  x : ℚ
  y : ℚ
  width : ℚ
  height : ℚ
  type : ObstacleType
  rotation : ℚ
  animationFrame : ℕ
deriving DecidableEq

/-- The `Coin` interface of the source. -/
structure Coin where
  id : ℕ
  lane : ℕ
  x : ℚ
  y : ℚ
  collected : Bool
  value : ℕ
  type : CoinType
  rotation : ℚ
  animationFrame : ℕ
deriving DecidableEq

/-- The `PowerUp` interface of the source. -/
structure PowerUp where
  id : ℕ
  lane : ℕ
  x : ℚ
  y : ℚ
  type : PowerUpType
  collected : Bool
  rotation : ℚ
  animationFrame : ℕ
deriving DecidableEq

/-- The `Particle` interface of the source. -/
structure Particle where
  id : ℕ
  x : ℚ
  y : ℚ
  vx : ℚ
  vy : ℚ
  life : ℚ
  maxLife : ℚ
  color : String
  size : ℚ
deriving DecidableEq

/-- The whole component state: the seven `useState` pieces plus the six
`useRef` counters of the source. -/
structure Game where
  gameState : Phase
  score : ℕ
  coins : ℕ
  highScore : ℕ
  level : ℕ
  player : Player
  obstacles : List Obstacle
  gameCoins : List Coin
  powerUps : List PowerUp
  particles : List Particle
  obstacleId : ℕ
  coinId : ℕ
  powerUpId : ℕ
  particleId : ℕ
  distance : ℕ
  frameCount : ℕ
deriving DecidableEq

/-- Oracle for `Math.random()`: the six scalar draws a single tick can make
for spawn lanes and kinds, and per-particle streams (indexed by particle id)
for particle velocities and sizes. -/
structure Rng where
  obsLane : ℚ
  obsType : ℚ
  coinLane : ℚ
  coinType : ℚ
  puLane : ℚ
  puType : ℚ
  pvx : ℕ → ℚ
  pvy : ℕ → ℚ
  psize : ℕ → ℚ

/-- The `Math.random` contract for the scalar draws of an oracle. -/
def RngValid (rng : Rng) : Prop :=
  0 ≤ rng.obsLane ∧ rng.obsLane < 1 ∧
  0 ≤ rng.obsType ∧ rng.obsType < 1 ∧
  0 ≤ rng.coinLane ∧ rng.coinLane < 1 ∧
  0 ≤ rng.coinType ∧ rng.coinType < 1 ∧
  0 ≤ rng.puLane ∧ rng.puLane < 1 ∧
  0 ≤ rng.puType ∧ rng.puType < 1

-- Constants of the source (lines 70-79).
def GAME_WIDTH : ℚ := 900
def GAME_HEIGHT : ℚ := 600
def LANE_WIDTH : ℚ := GAME_WIDTH / 3
def PLAYER_WIDTH : ℚ := 40
def PLAYER_HEIGHT : ℚ := 60
def GAME_SPEED : ℕ := 6
def JUMP_POWER : ℚ := 18
def GRAVITY : ℚ := 9/10
def MAX_JUMP_HEIGHT : ℚ := 120

/-- `Math.floor(r * n)` as a natural index, used for every random pick
(`Rat.floor` agrees with `Int.floor` on `ℚ` and computes). -/
def randIdx (n : ℕ) (r : ℚ) : ℕ := (Rat.floor (r * n)).toNat

/-- The player's axis-aligned box, as computed at the top of
`checkCollisions` (lines 569-574). -/
structure Rect where
  x : ℚ
  y : ℚ
  width : ℚ
  height : ℚ

def playerRect (p : Player) : Rect :=
  { x := p.x
  , y := p.y - p.jumpHeight + (if p.isSliding then 20 else 0)
  , width := PLAYER_WIDTH
  , height := if p.isSliding then PLAYER_HEIGHT * 0.6 else PLAYER_HEIGHT }

/-- Obstacle overlap test (lines 578-581). -/
def obstacleHit (r : Rect) (o : Obstacle) : Bool :=
  decide (o.x < r.x + r.width) && decide (o.x + o.width > r.x) &&
  decide (o.y < r.y + r.height) && decide (o.y + o.height > r.y)

/-- Coin pickup-box overlap test (lines 619-622). -/
def coinHit (r : Rect) (c : Coin) : Bool :=
  decide (c.x < r.x + r.width) && decide (c.x + 30 > r.x) &&
  decide (c.y < r.y + r.height) && decide (c.y + 30 > r.y)

/-- Power-up pickup-box overlap test (lines 635-638); note the source uses
the constant `PLAYER_WIDTH` here rather than `playerRect.width`. -/
def powerUpHit (r : Rect) (u : PowerUp) : Bool :=
  decide (u.x < r.x + PLAYER_WIDTH) && decide (u.x + 40 > r.x) &&
  decide (u.y < r.y + r.height) && decide (u.y + 40 > r.y)

/-- A coin is picked up when it is not yet collected and its box overlaps
(the guard of the coin branch, lines 618-622). -/
def coinTake (r : Rect) (c : Coin) : Bool := !c.collected && coinHit r c

/-- A power-up is picked up when it is not yet collected and overlaps
(the guard of the power-up branch, lines 634-638). -/
def puTake (r : Rect) (u : PowerUp) : Bool := !u.collected && powerUpHit r u

/-- What the coin branch does to a single coin record. -/
def markCoin (r : Rect) (c : Coin) : Coin :=
  if coinTake r c then { c with collected := true } else c

/-- What the power-up branch does to a single power-up record. -/
def markPU (r : Rect) (u : PowerUp) : PowerUp :=
  if puTake r u then { u with collected := true } else u

/-- The particle records pushed by one `createParticle(x, y, color, count)`
call, with ids `i, i+1, ...` (lines 118-134). -/
def mkParticles (rng : Rng) (x y : ℚ) (color : String) : ℕ → ℕ → List Particle
  | _, 0 => []
  | i, Nat.succ n =>
    { id := i, x := x, y := y
    , vx := (rng.pvx i - 0.5) * 8, vy := (rng.pvy i - 0.5) * 8
    , life := 1, maxLife := 1, color := color
    , size := rng.psize i * 3 + 2 } :: mkParticles rng x y color (i + 1) n

/-- `createParticle` (lines 118-134): appends `count` fresh particles. -/
def createParticle (rng : Rng) (x y : ℚ) (color : String) (count : ℕ)
    (g : Game) : Game :=
  { g with particles := g.particles ++ mkParticles rng x y color g.particleId count
         , particleId := g.particleId + count }

/-- The damage half of the obstacle branch (lines 590-594). -/
def damagePlayer (p : Player) : Player :=
  { p with health := max 0 (p.health - 25), isInvulnerable := true }

/-- The `setPlayer` of the power-up branch (lines 640-646): unconditionally
overwrite the active slot and reset the timer; the `health` kind additionally
restores 25 health, capped at `maxHealth`. -/
def applyPowerUpTo (t : PowerUpType) (p : Player) : Player :=
  { p with powerUpActive := true
         , powerUpType := some t
         , powerUpTimer := 10000
         , health := if t = PowerUpType.health
                     then min p.maxHealth (p.health + 25) else p.health }

/-- The coin scan (lines 617-630): the `prev.map` over the coin list, with the
`setCoins` and `createParticle` side effects threaded in list order. -/
def collectCoinsGo (rng : Rng) (r : Rect) : Game → List Coin → Game × List Coin
  | g, [] => (g, [])
  | g, c :: cs =>
    if coinTake r c then
      let g1 := { g with coins := g.coins + c.value }
      let g2 := createParticle rng (c.x + 15) (c.y + 15) "hsl(45, 100%, 60%)" 8 g1
      let res := collectCoinsGo rng r g2 cs
      (res.1, { c with collected := true } :: res.2)
    else
      let res := collectCoinsGo rng r g cs
      (res.1, c :: res.2)

/-- The power-up scan (lines 633-652): the `prev.map` over the power-up list,
with the `setPlayer` and `createParticle` side effects threaded in order. -/
def collectPowerUpsGo (rng : Rng) (r : Rect) :
    Game → List PowerUp → Game × List PowerUp
  | g, [] => (g, [])
  | g, u :: us =>
    if puTake r u then
      let g1 := { g with player := applyPowerUpTo u.type g.player }
      let g2 := createParticle rng (u.x + 20) (u.y + 20) "hsl(195, 100%, 55%)" 12 g1
      let res := collectPowerUpsGo rng r g2 us
      (res.1, { u with collected := true } :: res.2)
    else
      let res := collectPowerUpsGo rng r g us
      (res.1, u :: res.2)

/-- The body of the obstacle-overlap branch of `checkCollisions`
(lines 583-612): a shield suppresses the damage and emits a burst; otherwise
the player takes damage, becomes invulnerable and a burst is emitted, and if
the pre-hit health was at most 25 the phase becomes `gameOver`, updating the
high score when the score exceeds it. -/
def obstacleOutcome (rng : Rng) (g : Game) : Game :=
  if g.player.powerUpActive = true ∧ g.player.powerUpType = some PowerUpType.shield then
    createParticle rng (g.player.x + PLAYER_WIDTH / 2) g.player.y
      "hsl(195, 100%, 55%)" 10 g
  else
    let g1 := { g with player := damagePlayer g.player }
    let g2 := createParticle rng (g.player.x + PLAYER_WIDTH / 2) g.player.y
      "hsl(0, 100%, 50%)" 15 g1
    if g.player.health ≤ 25 then
      { g2 with gameState := Phase.gameOver
              , highScore := if g.score > g.highScore then g.score else g.highScore }
    else g2

/-- The coin and power-up scans of `checkCollisions` (lines 617-652), run
only when no obstacle overlapped. -/
def collectPhase (rng : Rng) (g : Game) : Game :=
  let r := playerRect g.player
  let resC := collectCoinsGo rng r g g.gameCoins
  let g1 := { resC.1 with gameCoins := resC.2 }
  let resP := collectPowerUpsGo rng r g1 g1.powerUps
  { resP.1 with powerUps := resP.2 }

/-- `checkCollisions` (lines 566-653). The guard returns at once while
invulnerable; otherwise the first overlapping obstacle is resolved (shield
burst, or damage / possible game over) and the function stops; only when no
obstacle overlaps do the coin and power-up scans run. The 2000 ms
`setTimeout` that clears invulnerability is modelled as a separate event. -/
def checkCollisions (rng : Rng) (g : Game) : Game :=
  if g.player.isInvulnerable then g
  else
    match g.obstacles.find? (obstacleHit (playerRect g.player)) with
    | some _ => obstacleOutcome rng g
    | none => collectPhase rng g

/-- The jump physics of `gameLoop` (lines 664-677): while jumping the velocity
accumulates `JUMP_POWER` and is added to the height; reaching
`MAX_JUMP_HEIGHT` only clears the flag and the velocity (the height keeps the
overshoot); otherwise a positive height falls by `GRAVITY`, settling at 0. -/
def jumpStep (p : Player) : Player :=
  if p.isJumping then
    let v := p.jumpVelocity + JUMP_POWER
    let h := p.jumpHeight + v
    if h ≥ MAX_JUMP_HEIGHT then
      { p with jumpHeight := h, jumpVelocity := 0, isJumping := false }
    else
      { p with jumpHeight := h, jumpVelocity := v }
  else if p.jumpHeight > 0 then
    let h := p.jumpHeight - GRAVITY
    if h ≤ 0 then { p with jumpHeight := 0, jumpVelocity := 0 }
    else { p with jumpHeight := h }
  else p

/-- The power-up countdown of `gameLoop` (lines 680-686): 16 ms per tick;
at `≤ 0` the slot is cleared (the timer keeps its decremented value). -/
def timerStep (p : Player) : Player :=
  if p.powerUpActive = true ∧ p.powerUpTimer > 0 then
    let t := p.powerUpTimer - 16
    if t ≤ 0 then { p with powerUpTimer := t, powerUpActive := false, powerUpType := none }
    else { p with powerUpTimer := t }
  else p

/-- The whole `setPlayer` updater of `gameLoop` (lines 661-689). -/
def physicsUpdate (p : Player) : Player := timerStep (jumpStep p)

/-- Per-tick obstacle translation/rotation (lines 692-698). -/
def moveObstacle (o : Obstacle) : Obstacle :=
  { o with y := o.y + (GAME_SPEED : ℚ), rotation := o.rotation + 0.02
         , animationFrame := o.animationFrame + 1 }

/-- Obstacle bound-exit pruning (line 699). -/
def keepObstacle (o : Obstacle) : Bool := decide (o.y < GAME_HEIGHT + 100)

/-- Per-tick coin translation/rotation (lines 703-709). -/
def moveCoin (c : Coin) : Coin :=
  { c with y := c.y + (GAME_SPEED : ℚ), rotation := c.rotation + 0.05
         , animationFrame := c.animationFrame + 1 }

/-- Coin bound-exit pruning (line 710). -/
def keepCoin (c : Coin) : Bool := decide (c.y < GAME_HEIGHT + 50)

/-- Per-tick power-up translation/rotation (lines 714-720). -/
def movePowerUp (u : PowerUp) : PowerUp :=
  { u with y := u.y + (GAME_SPEED : ℚ), rotation := u.rotation + 0.03
         , animationFrame := u.animationFrame + 1 }

/-- Power-up bound-exit pruning (line 721). -/
def keepPowerUp (u : PowerUp) : Bool := decide (u.y < GAME_HEIGHT + 50)

/-- Per-tick particle integration (lines 725-732). -/
def moveParticle (q : Particle) : Particle :=
  { q with x := q.x + q.vx, y := q.y + q.vy, life := q.life - 0.02
         , vy := q.vy + 0.1 }

/-- Particle pruning (line 733). -/
def keepParticle (q : Particle) : Bool := decide (q.life > 0)

/-- The entity-advance segment of `gameLoop` (lines 691-734). -/
def moveEntities (g : Game) : Game :=
  { g with obstacles := (g.obstacles.map moveObstacle).filter keepObstacle
         , gameCoins := (g.gameCoins.map moveCoin).filter keepCoin
         , powerUps := (g.powerUps.map movePowerUp).filter keepPowerUp
         , particles := (g.particles.map moveParticle).filter keepParticle }

/-- `spawnObstacle` (lines 499-527). -/
def spawnObstacle (rl rt : ℚ) (g : Game) : Game :=
  let lane := randIdx 3 rl
  let type := [ObstacleType.barrier, ObstacleType.train, ObstacleType.tunnel,
               ObstacleType.spike, ObstacleType.laser].getD (randIdx 5 rt)
               ObstacleType.barrier
  let width : ℚ := if type = ObstacleType.spike then 40
                   else if type = ObstacleType.laser then 80 else 60
  let height : ℚ := if type = ObstacleType.spike then 60
                    else if type = ObstacleType.laser then 20 else 80
  { g with obstacles := g.obstacles ++
      [{ id := g.obstacleId, lane := lane
       , x := (lane : ℚ) * LANE_WIDTH + LANE_WIDTH / 2 - width / 2
       , y := 50, width := width, height := height, type := type
       , rotation := 0, animationFrame := 0 }]
         , obstacleId := g.obstacleId + 1 }

/-- `spawnCoin` (lines 529-546). -/
def spawnCoin (rl rt : ℚ) (g : Game) : Game :=
  let lane := randIdx 3 rl
  let type := [CoinType.normal, CoinType.gold, CoinType.diamond].getD
               (randIdx 3 rt) CoinType.normal
  { g with gameCoins := g.gameCoins ++
      [{ id := g.coinId, lane := lane
       , x := (lane : ℚ) * LANE_WIDTH + LANE_WIDTH / 2 - 15
       , y := 30, collected := false
       , value := if type = CoinType.normal then 1
                  else if type = CoinType.gold then 5 else 10
       , type := type, rotation := 0, animationFrame := 0 }]
         , coinId := g.coinId + 1 }

/-- `spawnPowerUp` (lines 548-564). -/
def spawnPowerUp (rl rt : ℚ) (g : Game) : Game :=
  let lane := randIdx 3 rl
  let type := [PowerUpType.shield, PowerUpType.speed, PowerUpType.magnet,
               PowerUpType.health].getD (randIdx 4 rt) PowerUpType.shield
  { g with powerUps := g.powerUps ++
      [{ id := g.powerUpId, lane := lane
       , x := (lane : ℚ) * LANE_WIDTH + LANE_WIDTH / 2 - 20
       , y := 30, type := type, collected := false
       , rotation := 0, animationFrame := 0 }]
         , powerUpId := g.powerUpId + 1 }

/-- The spawn segment of `gameLoop` (lines 736-746): the distance accumulator
advances by `GAME_SPEED`, then each category spawns when the accumulator is an
exact multiple of its interval. -/
def spawnPhase (rng : Rng) (g : Game) : Game :=
  let g1 := { g with distance := g.distance + GAME_SPEED }
  let g2 := if g1.distance % 100 = 0 then spawnObstacle rng.obsLane rng.obsType g1 else g1
  let g3 := if g2.distance % 150 = 0 then spawnCoin rng.coinLane rng.coinType g2 else g2
  if g3.distance % 300 = 0 then spawnPowerUp rng.puLane rng.puType g3 else g3

/-- The score/level segment of `gameLoop` (lines 748-755). -/
def scorePhase (g : Game) : Game :=
  let newScore := g.distance / 10
  { g with score := newScore, level := newScore / 100 + 1 }

/-- One tick of `gameLoop` (lines 655-761): only in the `playing` phase, and
in source order — player physics, entity advance, spawns, score/level, then
`checkCollisions` (rendering is outside the model). -/
def gameLoop (rng : Rng) (g : Game) : Game :=
  if g.gameState = Phase.playing then
    checkCollisions rng (scorePhase (spawnPhase rng (moveEntities
      { g with player := physicsUpdate g.player, frameCount := g.frameCount + 1 })))
  else g

/-- The initial player of the source (lines 90-104 and 774-788). -/
def initialPlayer : Player :=
  { lane := 1
  , x := LANE_WIDTH + LANE_WIDTH / 2 - PLAYER_WIDTH / 2
  , y := GAME_HEIGHT - 100
  , isJumping := false
  , isSliding := false
  , jumpHeight := 0
  , jumpVelocity := 0
  , health := 100
  , maxHealth := 100
  , isInvulnerable := false
  , powerUpActive := false
  , powerUpType := none
  , powerUpTimer := 0 }

/-- `startGame` (lines 763-789): enter `playing` and reset score, coin total,
level, the distance and frame counters, all four entity collections and the
player (the id counters are not reset by the source). -/
def startGame (g : Game) : Game :=
  { g with gameState := Phase.playing
         , score := 0
         , coins := 0
         , level := 1
         , distance := 0
         , frameCount := 0
         , obstacles := []
         , gameCoins := []
         , powerUps := []
         , particles := []
         , player := initialPlayer }

/-- `togglePause` (lines 798-804). -/
def togglePause (g : Game) : Game :=
  if g.gameState = Phase.playing then { g with gameState := Phase.paused }
  else if g.gameState = Phase.paused then { g with gameState := Phase.playing }
  else g

/-- The keys of `handleKeyPress`, with equivalent bindings identified
(`ArrowLeft`/`a`/`A` and so on). -/
inductive Key
  | arrowLeft
  | arrowRight
  | arrowUp
  | arrowDown
  | space
  | keyP
deriving DecidableEq

/-- A lane change (lines 840-843 and 848-851): move to the given lane and
recompute the horizontal position from the lane index. -/
def setLane (lane : ℕ) (p : Player) : Player :=
  { p with lane := lane
         , x := (lane : ℚ) * LANE_WIDTH + LANE_WIDTH / 2 - PLAYER_WIDTH / 2 }

/-- `handleKeyPress` (lines 806-881). In `start` and `gameOver` the space key
restarts; in `paused` it resumes; in `playing` the movement keys act on the
player (the slide-clearing 500 ms `setTimeout` is a separate event). -/
def handleKeyPress (k : Key) (g : Game) : Game :=
  match g.gameState with
  | Phase.start => if k = Key.space then startGame g else g
  | Phase.gameOver => if k = Key.space then startGame g else g
  | Phase.paused => if k = Key.space then { g with gameState := Phase.playing } else g
  | Phase.playing =>
    match k with
    | Key.arrowLeft =>
      if g.player.lane > 0 then
        { g with player := setLane (g.player.lane - 1) g.player }
      else g
    | Key.arrowRight =>
      if g.player.lane < 2 then
        { g with player := setLane (g.player.lane + 1) g.player }
      else g
    | Key.space =>
      if g.player.jumpHeight = 0 then
        { g with player := { g.player with isJumping := true, jumpVelocity := 0 } }
      else g
    | Key.arrowUp =>
      if g.player.jumpHeight = 0 then
        { g with player := { g.player with isJumping := true, jumpVelocity := 0 } }
      else g
    | Key.arrowDown => { g with player := { g.player with isSliding := true } }
    | Key.keyP => togglePause g

/-- The `Try Again` / `Start Running` buttons, rendered only in the `start`
and `gameOver` menus (lines 962 and 993). -/
def startClick (g : Game) : Game :=
  if g.gameState = Phase.start ∨ g.gameState = Phase.gameOver then startGame g else g

/-- The `Main Menu` buttons (`resetGame`, lines 791-796), rendered in the
`paused` and `gameOver` menus. -/
def resetClick (g : Game) : Game :=
  if g.gameState = Phase.paused ∨ g.gameState = Phase.gameOver then
    { g with gameState := Phase.start } else g

/-- The `Resume` button of the paused menu (line 973). -/
def resumeClick (g : Game) : Game :=
  if g.gameState = Phase.paused then { g with gameState := Phase.playing } else g

/-- The deferred 2000 ms invulnerability-clearing timeout (lines 608-610). -/
def clearInvulnerable (g : Game) : Game :=
  { g with player := { g.player with isInvulnerable := false } }

/-- The deferred 500 ms slide-clearing timeout (lines 867-869). -/
def clearSliding (g : Game) : Game :=
  { g with player := { g.player with isSliding := false } }

/-- The initial component state (lines 84-116). -/
def initialGame : Game :=
  { gameState := Phase.start
  , score := 0
  , coins := 0
  , highScore := 0
  , level := 1
  , player := initialPlayer
  , obstacles := []
  , gameCoins := []
  , powerUps := []
  , particles := []
  , obstacleId := 0
  , coinId := 0
  , powerUpId := 0
  , particleId := 0
  , distance := 0
  , frameCount := 0 }

/-- One observable event of the system: a frame of `gameLoop` (with a valid
random oracle), a key press, a menu button, or one of the two wall-clock
timeouts (which may fire at any time relative to the frames). -/
inductive Step : Game → Game → Prop
  | doTick (rng : Rng) (hv : RngValid rng) (g : Game) : Step g (gameLoop rng g)
  | doKey (k : Key) (g : Game) : Step g (handleKeyPress k g)
  | doStart (g : Game) : Step g (startClick g)
  | doReset (g : Game) : Step g (resetClick g)
  | doResume (g : Game) : Step g (resumeClick g)
  | doInvulnTimeout (g : Game) : Step g (clearInvulnerable g)
  | doSlideTimeout (g : Game) : Step g (clearSliding g)

/-- States reachable from the initial state by any event sequence. -/
def Reachable (g : Game) : Prop := Relation.ReflTransGen Step initialGame g

/-- Iterated ticks with a schedule of oracles: `runTicks sched n g` applies
`n` frames, the `j`-th (1-indexed) using `sched (j-1)`. -/
def runTicks (sched : ℕ → Rng) : ℕ → Game → Game
  | 0, g => g
  | Nat.succ n, g => gameLoop (sched n) (runTicks sched n g)

/-- A concrete valid oracle whose scalar draws are all 0 (so every spawn picks
lane 0 and the first kind of its category). -/
def rngZero : Rng :=
  { obsLane := 0, obsType := 0, coinLane := 0, coinType := 0, puLane := 0
  , puType := 0, pvx := fun _ => 0, pvy := fun _ => 0, psize := fun _ => 0 }

/-- The all-zero oracle schedule. -/
def schedZero : ℕ → Rng := fun _ => rngZero

/-- Oracle that puts the spawned power-up in the centre lane (the draw 1/2
floors to lane index 1) and picks the first power-up kind, `shield`. -/
def rngShield : Rng := { rngZero with puLane := 1/2 }

/-- Oracle that puts the spawned obstacle in the centre lane. -/
def rngObsMid : Rng := { rngZero with obsLane := 1/2 }

/-- Schedule for the shield scenario: the 50th frame (distance 300) spawns its
power-up (a shield) in the player's lane, the 100th frame (distance 600)
spawns its obstacle in the player's lane, everything else spawns in lane 0
where it can never meet the player. -/
def schedC5 : ℕ → Rng :=
  fun n => if n = 49 then rngShield else if n = 99 then rngObsMid else rngZero

/-- The state at the start of a fresh session. -/
def startedGame : Game := startGame initialGame

/-- A concrete reachable play: 162 frames from a fresh session under
`schedC5`. The shield power-up descends to the player and is collected on
frame 122; the centre-lane obstacle first overlaps the player's box on frame
162, while the shield is still active. -/
def shieldScenario : Game := runTicks schedC5 162 startedGame

/-- A concrete reachable play for the jump arc: start, press jump, then four
frames (heights 18, 54, 108, 180). -/
def jumpScenario : Game :=
  runTicks schedZero 4 (handleKeyPress Key.space (handleKeyPress Key.space initialGame))

/-- An uncollected coin lying directly on the (non-jumping, non-sliding)
player's box at the initial player position. -/
def overlapCoin : Coin :=
  { id := 0, lane := 1, x := 430, y := 510, collected := false, value := 1
  , type := CoinType.normal, rotation := 0, animationFrame := 0 }

/-- A barrier obstacle overlapping the player's box at the initial player
position. -/
def overlapObstacle : Obstacle :=
  { id := 5, lane := 1, x := 420, y := 480, width := 60, height := 80
  , type := ObstacleType.barrier, rotation := 0, animationFrame := 0 }

/-- A playing state at health 25, neither invulnerable nor shielded, with an
overlapping obstacle, whose running score exceeds the stored high score. -/
def lowHealthGame : Game :=
  { initialGame with gameState := Phase.playing
                   , player := { initialPlayer with health := 25 }
                   , obstacles := [overlapObstacle]
                   , score := 7
                   , highScore := 3 }

/-- An uncollected shield power-up overlapping the player's box at the
initial player position. -/
def shieldPickup : PowerUp :=
  { id := 2, lane := 1, x := 430, y := 470, type := PowerUpType.shield
  , collected := false, rotation := 0, animationFrame := 0 }

/-- A player with a `speed` power-up active and time left on its clock. -/
def activeSpeedPlayer : Player :=
  { initialPlayer with powerUpActive := true
                     , powerUpType := some PowerUpType.speed
                     , powerUpTimer := 1234 }

/-- A playing state carrying `activeSpeedPlayer` and an overlapping
uncollected shield power-up about to be collected. -/
def activeSpeedGame : Game :=
  { initialGame with gameState := Phase.playing
                   , player := activeSpeedPlayer
                   , powerUps := [shieldPickup] }

/-- A playing state in which every entity overlapping the player has already
been collected. -/
def collectedGame : Game :=
  { initialGame with gameState := Phase.playing
                   , gameCoins := [{ overlapCoin with collected := true }]
                   , powerUps := [{ shieldPickup with collected := true }] }

/-- A player that is currently invulnerable. -/
def invulnerablePlayer : Player := { initialPlayer with isInvulnerable := true }

/-- A playing state whose player is invulnerable while an uncollected coin
and an uncollected power-up overlap the player's box. -/
def invulnerableGame : Game :=
  { initialGame with gameState := Phase.playing
                   , player := invulnerablePlayer
                   , gameCoins := [overlapCoin]
                   , powerUps := [shieldPickup] }

/-- The same state with a vulnerable player: the overlapping coin and
power-up get collected on this tick. -/
def vulnerableGame : Game :=
  { initialGame with gameState := Phase.playing
                   , gameCoins := [overlapCoin]
                   , powerUps := [shieldPickup] }

/-- A playing state with the player in the leftmost lane. -/
def laneZeroGame : Game :=
  { initialGame with gameState := Phase.playing, player := setLane 0 initialPlayer }

/-- A playing state with the player in the rightmost lane. -/
def laneTwoGame : Game :=
  { initialGame with gameState := Phase.playing, player := setLane 2 initialPlayer }

/-- A particle left over from earlier play. -/
def strayParticle : Particle :=
  { id := 0, x := 1, y := 2, vx := 3, vy := 4
  , life := 1/2, maxLife := 1, color := "white", size := 2 }

/-- A concrete `gameOver` state with dirty player and entity state. -/
def overGame : Game :=
  { lowHealthGame with gameState := Phase.gameOver
                     , particles := [strayParticle] }

/-- The jump-arc invariant: the height stays in `[0, 180]` (180 is the exact
overshoot apex `9·4·5`), the velocity is 0 on the floor, and while the jump
flag is set the state is one of the four ascent samples. -/
def InvJump (p : Player) : Prop :=
  0 ≤ p.jumpHeight ∧ p.jumpHeight ≤ 180 ∧ (p.jumpHeight = 0 → p.jumpVelocity = 0) ∧
    (p.isJumping = true →
      ∃ k : ℕ, k ≤ 3 ∧ p.jumpVelocity = 18 * (k : ℚ) ∧
        p.jumpHeight = 9 * (k : ℚ) * ((k : ℚ) + 1))

/-- The health invariant: health stays in `[0, maxHealth]` and `maxHealth`
keeps its initial value 100. -/
def InvHealth (p : Player) : Prop :=
  0 ≤ p.health ∧ p.health ≤ p.maxHealth ∧ p.maxHealth = 100

/-- The lane invariant: the lane index stays in `{0, 1, 2}`. -/
def InvLane (p : Player) : Prop := p.lane ≤ 2

/-- While invulnerable, a shield is never the active power-up (damage is the
only source of invulnerability and is skipped under a shield, and no pickup
happens while invulnerable). -/
def InvShield (p : Player) : Prop :=
  p.isInvulnerable = true →
    ¬(p.powerUpActive = true ∧ p.powerUpType = some PowerUpType.shield)

/-- All player invariants together. -/
def InvP (p : Player) : Prop := InvJump p ∧ InvHealth p ∧ InvLane p ∧ InvShield p

/-- The game-state invariant (only the player carries one). -/
def InvGame (g : Game) : Prop := InvP g.player

/-- `Rat.floor` is the `Int.floor` of the field `ℚ`. -/
theorem rat_floor_eq_int_floor (q : ℚ) : Rat.floor q = ⌊q⌋ := by
  rw [Rat.floor_def', Rat.floor_def]

/-- A valid random draw indexes inside its category. -/
theorem randIdx_lt (n : ℕ) (r : ℚ) (hn : 0 < n) (_h0 : 0 ≤ r) (h1 : r < 1) :
    randIdx n r < n := by
  unfold randIdx
  rw [rat_floor_eq_int_floor]
  have hfl : ⌊r * (n : ℚ)⌋ < (n : ℤ) := by
    apply Int.floor_lt.mpr
    push_cast
    have hnq : (0 : ℚ) < (n : ℚ) := by exact_mod_cast hn
    calc r * (n : ℚ) < 1 * (n : ℚ) := by exact mul_lt_mul_of_pos_right h1 hnq
    _ = (n : ℚ) := one_mul _
  omega

theorem mkParticles_length (rng : Rng) (x y : ℚ) (c : String) :
    ∀ (n i : ℕ), (mkParticles rng x y c i n).length = n := by
  intro n
  induction n with
  | zero => intro i; rfl
  | succ m ih => intro i; simp [mkParticles, ih]

theorem createParticle_player (rng : Rng) (x y : ℚ) (c : String) (n : ℕ) (g : Game) :
    (createParticle rng x y c n g).player = g.player := rfl

theorem createParticle_frame (rng : Rng) (x y : ℚ) (c : String) (n : ℕ) (g : Game) :
    (createParticle rng x y c n g).player = g.player ∧
    (createParticle rng x y c n g).obstacles = g.obstacles ∧
    (createParticle rng x y c n g).gameCoins = g.gameCoins ∧
    (createParticle rng x y c n g).powerUps = g.powerUps ∧
    (createParticle rng x y c n g).coins = g.coins ∧
    (createParticle rng x y c n g).score = g.score ∧
    (createParticle rng x y c n g).highScore = g.highScore ∧
    (createParticle rng x y c n g).gameState = g.gameState ∧
    (createParticle rng x y c n g).distance = g.distance ∧
    (createParticle rng x y c n g).level = g.level :=
  ⟨rfl, rfl, rfl, rfl, rfl, rfl, rfl, rfl, rfl, rfl⟩

theorem createParticle_particles_length (rng : Rng) (x y : ℚ) (c : String)
    (n : ℕ) (g : Game) :
    (createParticle rng x y c n g).particles.length = g.particles.length + n := by
  simp [createParticle, mkParticles_length]

theorem collectCoinsGo_snd (rng : Rng) (r : Rect) :
    ∀ (cs : List Coin) (g : Game),
      (collectCoinsGo rng r g cs).2 = cs.map (markCoin r) := by
  intro cs
  induction cs with
  | nil => intro g; rfl
  | cons c cs ih =>
    intro g
    by_cases h : coinTake r c
    · simp [collectCoinsGo, h, markCoin, ih]
    · simp [collectCoinsGo, h, markCoin, ih]

theorem collectCoinsGo_frame (rng : Rng) (r : Rect) :
    ∀ (cs : List Coin) (g : Game),
      (collectCoinsGo rng r g cs).1.player = g.player ∧
      (collectCoinsGo rng r g cs).1.obstacles = g.obstacles ∧
      (collectCoinsGo rng r g cs).1.gameCoins = g.gameCoins ∧
      (collectCoinsGo rng r g cs).1.powerUps = g.powerUps ∧
      (collectCoinsGo rng r g cs).1.score = g.score ∧
      (collectCoinsGo rng r g cs).1.highScore = g.highScore ∧
      (collectCoinsGo rng r g cs).1.gameState = g.gameState ∧
      (collectCoinsGo rng r g cs).1.distance = g.distance ∧
      (collectCoinsGo rng r g cs).1.level = g.level := by
  intro cs
  induction cs with
  | nil => intro g; exact ⟨rfl, rfl, rfl, rfl, rfl, rfl, rfl, rfl, rfl⟩
  | cons c cs ih =>
    intro g
    by_cases h : coinTake r c
    · simpa [collectCoinsGo, h] using ih _
    · simpa [collectCoinsGo, h] using ih _

theorem collectCoinsGo_coins (rng : Rng) (r : Rect) :
    ∀ (cs : List Coin) (g : Game),
      (collectCoinsGo rng r g cs).1.coins =
        g.coins + ((cs.filter (coinTake r)).map Coin.value).sum := by
  intro cs
  induction cs with
  | nil => intro g; simp [collectCoinsGo]
  | cons c cs ih =>
    intro g
    by_cases h : coinTake r c
    · simp [collectCoinsGo, h, List.filter_cons, ih, createParticle]
      ring
    · simp [collectCoinsGo, h, List.filter_cons, ih]

theorem collectCoinsGo_particles_length (rng : Rng) (r : Rect) :
    ∀ (cs : List Coin) (g : Game),
      (collectCoinsGo rng r g cs).1.particles.length =
        g.particles.length + 8 * (cs.filter (coinTake r)).length := by
  intro cs
  induction cs with
  | nil => intro g; simp [collectCoinsGo]
  | cons c cs ih =>
    intro g
    by_cases h : coinTake r c
    · simp [collectCoinsGo, h, List.filter_cons, ih, createParticle,
        mkParticles_length]
      ring
    · simp [collectCoinsGo, h, List.filter_cons, ih]

theorem collectPowerUpsGo_snd (rng : Rng) (r : Rect) :
    ∀ (us : List PowerUp) (g : Game),
      (collectPowerUpsGo rng r g us).2 = us.map (markPU r) := by
  intro us
  induction us with
  | nil => intro g; rfl
  | cons u us ih =>
    intro g
    by_cases h : puTake r u
    · simp [collectPowerUpsGo, h, markPU, ih]
    · simp [collectPowerUpsGo, h, markPU, ih]

theorem collectPowerUpsGo_frame (rng : Rng) (r : Rect) :
    ∀ (us : List PowerUp) (g : Game),
      (collectPowerUpsGo rng r g us).1.obstacles = g.obstacles ∧
      (collectPowerUpsGo rng r g us).1.gameCoins = g.gameCoins ∧
      (collectPowerUpsGo rng r g us).1.powerUps = g.powerUps ∧
      (collectPowerUpsGo rng r g us).1.coins = g.coins ∧
      (collectPowerUpsGo rng r g us).1.score = g.score ∧
      (collectPowerUpsGo rng r g us).1.highScore = g.highScore ∧
      (collectPowerUpsGo rng r g us).1.gameState = g.gameState ∧
      (collectPowerUpsGo rng r g us).1.distance = g.distance ∧
      (collectPowerUpsGo rng r g us).1.level = g.level := by
  intro us
  induction us with
  | nil => intro g; exact ⟨rfl, rfl, rfl, rfl, rfl, rfl, rfl, rfl, rfl⟩
  | cons u us ih =>
    intro g
    by_cases h : puTake r u
    · simpa [collectPowerUpsGo, h] using ih _
    · simpa [collectPowerUpsGo, h] using ih _

theorem collectPowerUpsGo_player (rng : Rng) (r : Rect) :
    ∀ (us : List PowerUp) (g : Game),
      (collectPowerUpsGo rng r g us).1.player =
        (us.filter (puTake r)).foldl (fun p u => applyPowerUpTo u.type p) g.player := by
  intro us
  induction us with
  | nil => intro g; rfl
  | cons u us ih =>
    intro g
    by_cases h : puTake r u
    · simp [collectPowerUpsGo, h, List.filter_cons, ih, createParticle]
    · simp [collectPowerUpsGo, h, List.filter_cons, ih]

theorem collectPowerUpsGo_particles_length (rng : Rng) (r : Rect) :
    ∀ (us : List PowerUp) (g : Game),
      (collectPowerUpsGo rng r g us).1.particles.length =
        g.particles.length + 12 * (us.filter (puTake r)).length := by
  intro us
  induction us with
  | nil => intro g; simp [collectPowerUpsGo]
  | cons u us ih =>
    intro g
    by_cases h : puTake r u
    · simp [collectPowerUpsGo, h, List.filter_cons, ih, createParticle,
        mkParticles_length]
      ring
    · simp [collectPowerUpsGo, h, List.filter_cons, ih]

theorem collectCoinsGo_player (rng : Rng) (r : Rect) (cs : List Coin) (g : Game) :
    (collectCoinsGo rng r g cs).1.player = g.player :=
  (collectCoinsGo_frame rng r cs g).1

theorem collectCoinsGo_obstacles (rng : Rng) (r : Rect) (cs : List Coin) (g : Game) :
    (collectCoinsGo rng r g cs).1.obstacles = g.obstacles :=
  (collectCoinsGo_frame rng r cs g).2.1

theorem collectCoinsGo_powerUps (rng : Rng) (r : Rect) (cs : List Coin) (g : Game) :
    (collectCoinsGo rng r g cs).1.powerUps = g.powerUps :=
  (collectCoinsGo_frame rng r cs g).2.2.2.1

theorem collectPowerUpsGo_obstacles (rng : Rng) (r : Rect) (us : List PowerUp) (g : Game) :
    (collectPowerUpsGo rng r g us).1.obstacles = g.obstacles :=
  (collectPowerUpsGo_frame rng r us g).1

theorem collectPowerUpsGo_gameCoins (rng : Rng) (r : Rect) (us : List PowerUp) (g : Game) :
    (collectPowerUpsGo rng r g us).1.gameCoins = g.gameCoins :=
  (collectPowerUpsGo_frame rng r us g).2.1

theorem collectPowerUpsGo_coins (rng : Rng) (r : Rect) (us : List PowerUp) (g : Game) :
    (collectPowerUpsGo rng r g us).1.coins = g.coins :=
  (collectPowerUpsGo_frame rng r us g).2.2.2.1

/-- The obstacle branch never touches the obstacle list. -/
theorem obstacleOutcome_obstacles (rng : Rng) (g : Game) :
    (obstacleOutcome rng g).obstacles = g.obstacles := by
  unfold obstacleOutcome
  split
  · rfl
  · split <;> rfl

/-- The collection scans never touch the obstacle list. -/
theorem collectPhase_obstacles (rng : Rng) (g : Game) :
    (collectPhase rng g).obstacles = g.obstacles := by
  unfold collectPhase
  simp only [collectPowerUpsGo_obstacles, collectCoinsGo_obstacles]

/-- `checkCollisions` never touches the obstacle list. -/
theorem checkCollisions_obstacles (rng : Rng) (g : Game) :
    (checkCollisions rng g).obstacles = g.obstacles := by
  unfold checkCollisions
  split
  · rfl
  split
  · exact obstacleOutcome_obstacles rng g
  · exact collectPhase_obstacles rng g

/-- The player invariants hold initially. -/
theorem invP_initialPlayer : InvP initialPlayer := by
  refine ⟨⟨?_, ?_, ?_, ?_⟩, ⟨?_, ?_, ?_⟩, ?_, ?_⟩ <;>
    simp [initialPlayer, InvJump, InvHealth, InvLane, InvShield]

/-- Damage keeps the player invariants, provided no shield was active (which
is exactly the guard under which the damage branch runs). -/
theorem invP_damagePlayer (p : Player) (h : InvP p)
    (hns : ¬(p.powerUpActive = true ∧ p.powerUpType = some PowerUpType.shield)) :
    InvP (damagePlayer p) := by
  obtain ⟨hj, ⟨hh0, hhm, hm⟩, hl, hs⟩ := h
  refine ⟨hj, ⟨?_, ?_, ?_⟩, hl, fun _ => hns⟩ <;>
    (simp only [damagePlayer]; omega)

/-- Collecting a power-up keeps the player invariants and does not touch
invulnerability. -/
theorem invP_applyPowerUpTo (t : PowerUpType) (p : Player)
    (hj : InvJump p) (hh : InvHealth p) (hl : InvLane p) :
    (InvJump (applyPowerUpTo t p) ∧ InvHealth (applyPowerUpTo t p) ∧
      InvLane (applyPowerUpTo t p)) ∧
    (applyPowerUpTo t p).isInvulnerable = p.isInvulnerable := by
  obtain ⟨hh0, hhm, hm⟩ := hh
  refine ⟨⟨hj, ⟨?_, ?_, hm⟩, hl⟩, rfl⟩
  · unfold applyPowerUpTo
    split <;> (simp; try omega)
  · unfold applyPowerUpTo
    split <;> (simp; try omega)

/-- The pickup fold of the power-up scan keeps the player invariants and
invulnerability. -/
theorem invP_foldPowerUps :
    ∀ (us : List PowerUp) (p : Player), InvJump p → InvHealth p → InvLane p →
      (InvJump (us.foldl (fun q u => applyPowerUpTo u.type q) p) ∧
       InvHealth (us.foldl (fun q u => applyPowerUpTo u.type q) p) ∧
       InvLane (us.foldl (fun q u => applyPowerUpTo u.type q) p)) ∧
      (us.foldl (fun q u => applyPowerUpTo u.type q) p).isInvulnerable =
        p.isInvulnerable := by
  intro us
  induction us with
  | nil => intro p hj hh hl; exact ⟨⟨hj, hh, hl⟩, rfl⟩
  | cons u us ih =>
    intro p hj hh hl
    have h1 := invP_applyPowerUpTo u.type p hj hh hl
    have h2 := ih (applyPowerUpTo u.type p) h1.1.1 h1.1.2.1 h1.1.2.2
    simp only [List.foldl_cons]
    exact ⟨h2.1, h2.2.trans h1.2⟩

/-- The obstacle branch keeps the player invariants. -/
theorem invP_obstacleOutcome (rng : Rng) (g : Game) (h : InvP g.player) :
    InvP (obstacleOutcome rng g).player := by
  unfold obstacleOutcome
  split
  · exact h
  next hns =>
    split
    · exact invP_damagePlayer g.player h hns
    · exact invP_damagePlayer g.player h hns

/-- The player after the collection scans is the pickup fold applied to the
player before them. -/
theorem collectPhase_player (rng : Rng) (g : Game) :
    (collectPhase rng g).player =
      (((collectCoinsGo rng (playerRect g.player) g g.gameCoins).1.powerUps.filter
          (puTake (playerRect g.player))).foldl
        (fun p u => applyPowerUpTo u.type p) g.player) := by
  unfold collectPhase
  rw [collectPowerUpsGo_player, collectCoinsGo_player]

/-- The collection scans keep the player invariants and do not touch
invulnerability. -/
theorem invP_collectPhase (rng : Rng) (g : Game) (h : InvP g.player)
    (hinv : g.player.isInvulnerable = false) :
    InvP (collectPhase rng g).player := by
  rw [collectPhase_player]
  obtain ⟨hj, hh, hl, _⟩ := h
  have hf := invP_foldPowerUps
    ((collectCoinsGo rng (playerRect g.player) g g.gameCoins).1.powerUps.filter
      (puTake (playerRect g.player))) g.player hj hh hl
  refine ⟨hf.1.1, hf.1.2.1, hf.1.2.2, ?_⟩
  unfold InvShield
  rw [hf.2, hinv]
  intro hc
  cases hc

/-- `checkCollisions` keeps the player invariants. -/
theorem invP_checkCollisions (rng : Rng) (g : Game) (h : InvP g.player) :
    InvP (checkCollisions rng g).player := by
  unfold checkCollisions
  split
  · exact h
  next hni =>
  split
  · exact invP_obstacleOutcome rng g h
  · refine invP_collectPhase rng g h ?_
    revert hni
    cases g.player.isInvulnerable <;> simp

/-- The jump integrator keeps the jump-arc invariant: each ascent step moves
between consecutive samples `9k(k+1)`, the exit keeps the overshoot `180`,
and descent shrinks a positive height towards the floor. -/
theorem invJump_jumpStep (p : Player) (h : InvJump p) : InvJump (jumpStep p) := by
  obtain ⟨h0, h180, hz, hk⟩ := h
  unfold jumpStep
  dsimp only
  split
  next hj =>
    obtain ⟨k, hk3, hv, hh⟩ := hk hj
    split
    next hge =>
      unfold InvJump
      dsimp only
      refine ⟨?_, ?_, ?_, ?_⟩
      · rw [hv, hh]
        unfold JUMP_POWER
        positivity
      · rw [hv, hh]
        unfold JUMP_POWER
        interval_cases k <;> norm_num
      · intro _
        rfl
      · intro hco
        exact Bool.noConfusion hco
    next hlt =>
      push_neg at hlt
      unfold InvJump
      dsimp only
      refine ⟨?_, ?_, ?_, ?_⟩
      · rw [hv, hh]
        unfold JUMP_POWER
        positivity
      · unfold MAX_JUMP_HEIGHT at hlt
        linarith
      · intro hco
        exfalso
        rw [hv, hh] at hco
        unfold JUMP_POWER at hco
        have hknn : (0 : ℚ) ≤ (k : ℚ) := Nat.cast_nonneg k
        nlinarith
      · intro _
        refine ⟨k + 1, ?_, ?_, ?_⟩
        · by_contra hgt
          have hk4 : k = 3 := by omega
          subst hk4
          rw [hv, hh] at hlt
          unfold JUMP_POWER MAX_JUMP_HEIGHT at hlt
          norm_num at hlt
        · push_cast
          rw [hv]
          unfold JUMP_POWER
          ring
        · push_cast
          rw [hv, hh]
          unfold JUMP_POWER
          ring
  next hnj =>
    split
    next hpos =>
      split
      next hfloor =>
        unfold InvJump
        dsimp only
        refine ⟨le_refl 0, by norm_num, fun _ => rfl, fun hc => absurd hc hnj⟩
      next hfloor =>
        push_neg at hfloor
        unfold InvJump
        dsimp only
        refine ⟨le_of_lt hfloor, ?_, ?_, fun hc => absurd hc hnj⟩
        · unfold GRAVITY
          unfold GRAVITY at hfloor
          linarith
        · intro hco
          exfalso
          rw [hco] at hfloor
          exact lt_irrefl 0 hfloor
    next hnpos =>
      exact ⟨h0, h180, hz, hk⟩

/-- The power-up countdown keeps all player invariants. -/
theorem invP_timerStep (p : Player) (h : InvP p) : InvP (timerStep p) := by
  obtain ⟨hj, hh, hl, hs⟩ := h
  unfold timerStep
  dsimp only
  split
  · split
    · refine ⟨hj, hh, hl, ?_⟩
      intro _ hc
      exact absurd hc.1 (by simp)
    · exact ⟨hj, hh, hl, hs⟩
  · exact ⟨hj, hh, hl, hs⟩

/-- The jump integrator does not touch the non-jump player fields. -/
theorem jumpStep_frame (p : Player) :
    (jumpStep p).lane = p.lane ∧ (jumpStep p).health = p.health ∧
    (jumpStep p).maxHealth = p.maxHealth ∧
    (jumpStep p).isInvulnerable = p.isInvulnerable ∧
    (jumpStep p).powerUpActive = p.powerUpActive ∧
    (jumpStep p).powerUpType = p.powerUpType := by
  unfold jumpStep
  dsimp only
  split
  · split <;> exact ⟨rfl, rfl, rfl, rfl, rfl, rfl⟩
  · split
    · split <;> exact ⟨rfl, rfl, rfl, rfl, rfl, rfl⟩
    · exact ⟨rfl, rfl, rfl, rfl, rfl, rfl⟩

/-- The jump integrator keeps all player invariants. -/
theorem invP_jumpStep (p : Player) (h : InvP p) : InvP (jumpStep p) := by
  obtain ⟨hj, hh, hl, hs⟩ := h
  obtain ⟨hf1, hf2, hf3, hf4, hf5, hf6⟩ := jumpStep_frame p
  refine ⟨invJump_jumpStep p hj, ?_, ?_, ?_⟩
  · unfold InvHealth at hh ⊢
    rw [hf2, hf3]
    exact hh
  · unfold InvLane at hl ⊢
    rw [hf1]
    exact hl
  · unfold InvShield at hs ⊢
    rw [hf4, hf5, hf6]
    exact hs

/-- The whole per-tick player physics keeps the player invariants. -/
theorem invP_physicsUpdate (p : Player) (h : InvP p) : InvP (physicsUpdate p) :=
  invP_timerStep _ (invP_jumpStep p h)

theorem moveEntities_player (g : Game) : (moveEntities g).player = g.player := rfl

theorem spawnObstacle_player (rl rt : ℚ) (g : Game) :
    (spawnObstacle rl rt g).player = g.player := rfl

theorem spawnCoin_player (rl rt : ℚ) (g : Game) :
    (spawnCoin rl rt g).player = g.player := rfl

theorem spawnPowerUp_player (rl rt : ℚ) (g : Game) :
    (spawnPowerUp rl rt g).player = g.player := rfl

theorem spawnPhase_player (rng : Rng) (g : Game) :
    (spawnPhase rng g).player = g.player := by
  unfold spawnPhase
  dsimp only
  split <;> split <;> split <;> rfl

theorem scorePhase_player (g : Game) : (scorePhase g).player = g.player := rfl

/-- One frame of the loop keeps the player invariants. -/
theorem invGame_gameLoop (rng : Rng) (g : Game) (h : InvGame g) :
    InvGame (gameLoop rng g) := by
  unfold gameLoop
  split
  · apply invP_checkCollisions
    rw [scorePhase_player, spawnPhase_player, moveEntities_player]
    exact invP_physicsUpdate g.player h
  · exact h

theorem togglePause_player (g : Game) : (togglePause g).player = g.player := by
  unfold togglePause
  split
  · rfl
  · split <;> rfl

/-- A lane change to a valid lane keeps the player invariants. -/
theorem invP_setLane (l : ℕ) (p : Player) (h : InvP p) (hl : l ≤ 2) :
    InvP (setLane l p) := by
  obtain ⟨hj, hh, _, hs⟩ := h
  exact ⟨hj, hh, hl, hs⟩

/-- Key handling keeps the player invariants. -/
theorem invP_handleKeyPress (k : Key) (g : Game) (h : InvP g.player) :
    InvP (handleKeyPress k g).player := by
  unfold handleKeyPress
  split
  · split
    · exact invP_initialPlayer
    · exact h
  · split
    · exact invP_initialPlayer
    · exact h
  · split
    · exact h
    · exact h
  · split
    · split
      next hlane =>
        have hL : g.player.lane ≤ 2 := h.2.2.1
        exact invP_setLane _ _ h (by omega)
      · exact h
    · split
      next hlane =>
        exact invP_setLane _ _ h (by omega)
      · exact h
    · split
      next hzero =>
        obtain ⟨⟨h0, h180, hz, _⟩, hh, hl, hs⟩ := h
        refine ⟨⟨h0, h180, fun _ => rfl, ?_⟩, hh, hl, hs⟩
        intro _
        refine ⟨0, by omega, by norm_num, ?_⟩
        show g.player.jumpHeight = 9 * ((0 : ℕ) : ℚ) * (((0 : ℕ) : ℚ) + 1)
        rw [hzero]
        norm_num
      · exact h
    · split
      next hzero =>
        obtain ⟨⟨h0, h180, hz, _⟩, hh, hl, hs⟩ := h
        refine ⟨⟨h0, h180, fun _ => rfl, ?_⟩, hh, hl, hs⟩
        intro _
        refine ⟨0, by omega, by norm_num, ?_⟩
        show g.player.jumpHeight = 9 * ((0 : ℕ) : ℚ) * (((0 : ℕ) : ℚ) + 1)
        rw [hzero]
        norm_num
      · exact h
    · obtain ⟨hj, hh, hl, hs⟩ := h
      exact ⟨hj, hh, hl, hs⟩
    · rw [togglePause_player]
      exact h

/-- Every event of the system keeps the invariants. -/
theorem invGame_step {g g' : Game} (s : Step g g') (h : InvGame g) : InvGame g' := by
  cases s with
  | doTick rng hv g => exact invGame_gameLoop rng g h
  | doKey k g => exact invP_handleKeyPress k g h
  | doStart g =>
    unfold InvGame startClick
    split
    · exact invP_initialPlayer
    · exact h
  | doReset g =>
    unfold InvGame resetClick
    split
    · exact h
    · exact h
  | doResume g =>
    unfold InvGame resumeClick
    split
    · exact h
    · exact h
  | doInvulnTimeout g =>
    obtain ⟨hj, hh, hl, _⟩ := h
    exact ⟨hj, hh, hl, fun hc => Bool.noConfusion hc⟩
  | doSlideTimeout g =>
    obtain ⟨hj, hh, hl, hs⟩ := h
    exact ⟨hj, hh, hl, hs⟩

/-- All player invariants hold in every reachable state. -/
theorem invGame_reachable (g : Game) (h : Reachable g) : InvGame g := by
  induction h with
  | refl => exact invP_initialPlayer
  | tail _ hstep ih => exact invGame_step hstep ih

theorem rngZero_valid : RngValid rngZero := by
  unfold RngValid rngZero
  norm_num

theorem rngShield_valid : RngValid rngShield := by
  unfold RngValid rngShield rngZero
  norm_num

theorem rngObsMid_valid : RngValid rngObsMid := by
  unfold RngValid rngObsMid rngZero
  norm_num

theorem schedZero_valid : ∀ n, RngValid (schedZero n) := fun _ => rngZero_valid

theorem schedC5_valid : ∀ n, RngValid (schedC5 n) := by
  intro n
  unfold schedC5
  split
  · exact rngShield_valid
  split
  · exact rngObsMid_valid
  · exact rngZero_valid

/-- Frames reached from a reachable state are reachable. -/
theorem reachable_runTicks (sched : ℕ → Rng) (hs : ∀ n, RngValid (sched n)) :
    ∀ (n : ℕ) (g : Game), Reachable g → Reachable (runTicks sched n g) := by
  intro n
  induction n with
  | zero => intro g hg; exact hg
  | succ m ih =>
    intro g hg
    exact Relation.ReflTransGen.tail (ih g hg) (Step.doTick (sched m) (hs m) _)

set_option maxRecDepth 40000 in
theorem reachable_startedGame : Reachable startedGame := by
  have h : handleKeyPress Key.space initialGame = startedGame := by
    with_unfolding_all decide
  exact h ▸ Relation.ReflTransGen.single (Step.doKey Key.space initialGame)

theorem reachable_jumpScenario : Reachable jumpScenario := by
  have h0 : Reachable (handleKeyPress Key.space (handleKeyPress Key.space initialGame)) :=
    Relation.ReflTransGen.tail
      (Relation.ReflTransGen.single (Step.doKey Key.space initialGame))
      (Step.doKey Key.space _)
  exact reachable_runTicks schedZero schedZero_valid 4 _ h0

theorem reachable_shieldScenario : Reachable shieldScenario :=
  reachable_runTicks schedC5 schedC5_valid 162 startedGame reachable_startedGame

/-- When no coin is picked up the coin scan changes nothing. -/
theorem collectCoinsGo_id (rng : Rng) (r : Rect) :
    ∀ (cs : List Coin) (g : Game), (∀ c ∈ cs, coinTake r c = false) →
      collectCoinsGo rng r g cs = (g, cs) := by
  intro cs
  induction cs with
  | nil => intro g _; rfl
  | cons c cs ih =>
    intro g h
    have hc : coinTake r c = false := h c (List.mem_cons_self c cs)
    have hrest : ∀ c' ∈ cs, coinTake r c' = false :=
      fun c' hm => h c' (List.mem_cons_of_mem c hm)
    simp [collectCoinsGo, hc, ih g hrest]

/-- When no power-up is picked up the power-up scan changes nothing. -/
theorem collectPowerUpsGo_id (rng : Rng) (r : Rect) :
    ∀ (us : List PowerUp) (g : Game), (∀ u ∈ us, puTake r u = false) →
      collectPowerUpsGo rng r g us = (g, us) := by
  intro us
  induction us with
  | nil => intro g _; rfl
  | cons u us ih =>
    intro g h
    have hu : puTake r u = false := h u (List.mem_cons_self u us)
    have hrest : ∀ u' ∈ us, puTake r u' = false :=
      fun u' hm => h u' (List.mem_cons_of_mem u hm)
    simp [collectPowerUpsGo, hu, ih g hrest]

theorem spawnObstacle_distance (rl rt : ℚ) (g : Game) :
    (spawnObstacle rl rt g).distance = g.distance := rfl

theorem spawnCoin_obstacles (rl rt : ℚ) (g : Game) :
    (spawnCoin rl rt g).obstacles = g.obstacles := rfl

theorem spawnCoin_distance (rl rt : ℚ) (g : Game) :
    (spawnCoin rl rt g).distance = g.distance := rfl

theorem spawnPowerUp_obstacles (rl rt : ℚ) (g : Game) :
    (spawnPowerUp rl rt g).obstacles = g.obstacles := rfl

/-- A spawned obstacle is appended, in a valid lane, at the spawn origin. -/
theorem spawnObstacle_spec (rl rt : ℚ) (g : Game) (h0 : 0 ≤ rl) (h1 : rl < 1) :
    ∃ ob : Obstacle, (spawnObstacle rl rt g).obstacles = g.obstacles ++ [ob] ∧
      ob.lane < 3 ∧ ob.y = 50 := by
  unfold spawnObstacle
  dsimp only
  exact ⟨_, rfl, randIdx_lt 3 rl (by norm_num) h0 h1, rfl⟩

/-- On a frame where the advanced accumulator is an exact multiple of 100,
the spawn segment appends exactly one obstacle, in a valid lane, at `y = 50`. -/
theorem spawnPhase_obstacles_hit (rng : Rng) (g : Game) (hv : RngValid rng)
    (hmod : (g.distance + GAME_SPEED) % 100 = 0) :
    ∃ ob : Obstacle, (spawnPhase rng g).obstacles = g.obstacles ++ [ob] ∧
      ob.lane < 3 ∧ ob.y = 50 := by
  obtain ⟨ob, hob, hlane, hy⟩ := spawnObstacle_spec rng.obsLane rng.obsType
    { g with distance := g.distance + GAME_SPEED } hv.1 hv.2.1
  unfold spawnPhase
  dsimp only
  rw [if_pos hmod]
  split
  · split
    · exact ⟨ob, by rw [spawnPowerUp_obstacles, spawnCoin_obstacles, hob], hlane, hy⟩
    · exact ⟨ob, by rw [spawnCoin_obstacles, hob], hlane, hy⟩
  · split
    · exact ⟨ob, by rw [spawnPowerUp_obstacles, hob], hlane, hy⟩
    · exact ⟨ob, by rw [hob], hlane, hy⟩

theorem scorePhase_obstacles (g : Game) : (scorePhase g).obstacles = g.obstacles := rfl

/-- C8: issuing the start/restart command (space) from `gameOver` runs
`startGame`, which restores the player to the exact initial state (lane 1,
initial pose, health 100, not invulnerable, no active power-up, zero jump
height), empties all four entity collections, and resets score, coin total,
level and the distance accumulator (entering `playing`). -/
theorem restart_resets (g : Game) (hg : g.gameState = Phase.gameOver) :
    handleKeyPress Key.space g = startGame g ∧
    (startGame g).player = initialPlayer ∧
    (startGame g).obstacles = [] ∧
    (startGame g).gameCoins = [] ∧
    (startGame g).powerUps = [] ∧
    (startGame g).particles = [] ∧
    (startGame g).score = 0 ∧
    (startGame g).coins = 0 ∧
    (startGame g).level = 1 ∧
    (startGame g).distance = 0 ∧
    (startGame g).gameState = Phase.playing ∧
    initialPlayer.lane = 1 ∧
    initialPlayer.health = 100 ∧
    initialPlayer.isInvulnerable = false ∧
    initialPlayer.powerUpActive = false ∧
    initialPlayer.powerUpType = none ∧
    initialPlayer.jumpHeight = 0 := by
  refine ⟨?_, rfl, rfl, rfl, rfl, rfl, rfl, rfl, rfl, rfl, rfl, rfl, rfl, rfl, rfl, rfl, rfl⟩
  unfold handleKeyPress
  rw [hg]
  rfl

/-- Witness for C8 at a concrete dirty `gameOver` state. -/
theorem restart_resets_witness :
    handleKeyPress Key.space overGame = startGame overGame ∧
    (startGame overGame).player = initialPlayer ∧
    (startGame overGame).particles = [] := by
  have h := restart_resets overGame rfl
  exact ⟨h.1, h.2.1, h.2.2.2.2.2.1⟩

/-- C10: health stays within `[0, maxHealth]` in every reachable state;
pointwise, obstacle damage is floored at 0 and the `health` power-up's
restoration is capped at `maxHealth`. -/
theorem health_bounds :
    (∀ g : Game, Reachable g →
      0 ≤ g.player.health ∧ g.player.health ≤ g.player.maxHealth) ∧
    (∀ p : Player, 0 ≤ (damagePlayer p).health) ∧
    (∀ p : Player, (applyPowerUpTo PowerUpType.health p).health ≤ p.maxHealth) := by
  refine ⟨?_, ?_, ?_⟩
  · intro g hr
    obtain ⟨_, ⟨h0, hm, _⟩, _⟩ := invGame_reachable g hr
    exact ⟨h0, hm⟩
  · intro p
    exact le_max_left 0 (p.health - 25)
  · intro p
    simp [applyPowerUpTo]

/-- Witness for C10 at concrete inputs. -/
theorem health_bounds_witness :
    (0 ≤ initialGame.player.health ∧
      initialGame.player.health ≤ initialGame.player.maxHealth) ∧
    0 ≤ (damagePlayer initialPlayer).health ∧
    (applyPowerUpTo PowerUpType.health initialPlayer).health ≤ initialPlayer.maxHealth :=
  ⟨health_bounds.1 initialGame Relation.ReflTransGen.refl,
   health_bounds.2.1 initialPlayer,
   health_bounds.2.2 initialPlayer⟩

/-- C2 counterexample: from a fresh session, one jump command followed by
four frames is reachable and leaves `jumpHeight` at 180, strictly above
`MAX_JUMP_HEIGHT = 120` — the claimed bound `jumpHeight ≤ MAX_JUMP_HEIGHT`
fails on the code (reaching the apex clears the flag and the velocity but
keeps the overshot height). -/
theorem jump_exceeds_max_cex :
    Reachable jumpScenario ∧
    ¬(jumpScenario.player.jumpHeight ≤ MAX_JUMP_HEIGHT) ∧
    jumpScenario.player.jumpHeight = 180 := by
  refine ⟨reachable_jumpScenario, ?_, ?_⟩
  · with_unfolding_all decide
  · with_unfolding_all decide

/-- C2 (amended): in every reachable state `jumpHeight ∈ [0, 180]` — the
true apex is `MAX_JUMP_HEIGHT` overshot to `9·4·5 = 180` — and a player
settled on the floor (`jumpHeight = 0`) has `jumpVelocity = 0`. -/
theorem jump_bounds (g : Game) (hr : Reachable g) :
    0 ≤ g.player.jumpHeight ∧ g.player.jumpHeight ≤ 180 ∧
      (g.player.jumpHeight = 0 → g.player.jumpVelocity = 0) := by
  obtain ⟨⟨h0, h180, hz, _⟩, _⟩ := invGame_reachable g hr
  exact ⟨h0, h180, hz⟩

/-- Witness for C2 (amended) at the overshoot state itself. -/
theorem jump_bounds_witness :
    0 ≤ jumpScenario.player.jumpHeight ∧ jumpScenario.player.jumpHeight ≤ 180 ∧
      (jumpScenario.player.jumpHeight = 0 → jumpScenario.player.jumpVelocity = 0) :=
  jump_bounds jumpScenario reachable_jumpScenario

/-- C9: in every reachable state the lane is in `{0,1,2}`; a left move at
lane 0 and a right move at lane 2 leave the whole state unchanged; any other
lane change in the playing phase moves exactly one lane and recomputes the
horizontal position from the lane index. -/
theorem lane_safety :
    (∀ g : Game, Reachable g → g.player.lane ≤ 2) ∧
    (∀ g : Game, g.player.lane = 0 → handleKeyPress Key.arrowLeft g = g) ∧
    (∀ g : Game, g.player.lane = 2 → handleKeyPress Key.arrowRight g = g) ∧
    (∀ g : Game, g.gameState = Phase.playing → 0 < g.player.lane →
      (handleKeyPress Key.arrowLeft g).player.lane = g.player.lane - 1 ∧
      (handleKeyPress Key.arrowLeft g).player.x =
        ((g.player.lane - 1 : ℕ) : ℚ) * LANE_WIDTH + LANE_WIDTH / 2 - PLAYER_WIDTH / 2) ∧
    (∀ g : Game, g.gameState = Phase.playing → g.player.lane < 2 →
      (handleKeyPress Key.arrowRight g).player.lane = g.player.lane + 1 ∧
      (handleKeyPress Key.arrowRight g).player.x =
        ((g.player.lane + 1 : ℕ) : ℚ) * LANE_WIDTH + LANE_WIDTH / 2 - PLAYER_WIDTH / 2) := by
  refine ⟨?_, ?_, ?_, ?_, ?_⟩
  · intro g hr
    exact (invGame_reachable g hr).2.2.1
  · intro g h0
    unfold handleKeyPress
    split <;> simp [h0]
  · intro g h2
    unfold handleKeyPress
    split <;> simp [h2]
  · intro g hgs hpos
    unfold handleKeyPress
    rw [hgs]
    have : g.player.lane > 0 := hpos
    rw [if_pos this]
    exact ⟨rfl, rfl⟩
  · intro g hgs hlt
    unfold handleKeyPress
    rw [hgs]
    rw [if_pos hlt]
    exact ⟨rfl, rfl⟩

/-- Witness for C9 at concrete states in every component. -/
theorem lane_safety_witness :
    initialGame.player.lane ≤ 2 ∧
    handleKeyPress Key.arrowLeft laneZeroGame = laneZeroGame ∧
    handleKeyPress Key.arrowRight laneTwoGame = laneTwoGame ∧
    (handleKeyPress Key.arrowLeft startedGame).player.lane = startedGame.player.lane - 1 ∧
    (handleKeyPress Key.arrowRight startedGame).player.lane = startedGame.player.lane + 1 := by
  refine ⟨lane_safety.1 initialGame Relation.ReflTransGen.refl,
    lane_safety.2.1 laneZeroGame rfl,
    lane_safety.2.2.1 laneTwoGame rfl,
    (lane_safety.2.2.2.1 startedGame rfl (by norm_num [startedGame, startGame, initialPlayer])).1,
    (lane_safety.2.2.2.2 startedGame rfl (by norm_num [startedGame, startGame, initialPlayer])).1⟩

/-- C4: a collision frame at health exactly 25 with the player neither
invulnerable nor shielded and an overlapping obstacle reduces health by the
fixed 25 damage (to 0), moves the phase to `gameOver`, and updates the stored
high score exactly when the running score strictly exceeds it. -/
theorem fatal_hit (rng : Rng) (g : Game)
    (hh : g.player.health = 25)
    (hi : g.player.isInvulnerable = false)
    (hs : ¬(g.player.powerUpActive = true ∧ g.player.powerUpType = some PowerUpType.shield))
    (ho : (g.obstacles.find? (obstacleHit (playerRect g.player))).isSome = true) :
    (checkCollisions rng g).player.health = g.player.health - 25 ∧
    (checkCollisions rng g).player.health = 0 ∧
    (checkCollisions rng g).gameState = Phase.gameOver ∧
    (g.score > g.highScore → (checkCollisions rng g).highScore = g.score) ∧
    (¬(g.score > g.highScore) → (checkCollisions rng g).highScore = g.highScore) := by
  obtain ⟨o, ho2⟩ := Option.isSome_iff_exists.mp ho
  have hle : g.player.health ≤ 25 := by omega
  have hcc : checkCollisions rng g = obstacleOutcome rng g := by
    unfold checkCollisions
    rw [hi]
    simp only [Bool.false_eq_true, if_false, ho2]
  rw [hcc]
  unfold obstacleOutcome
  rw [if_neg hs]
  dsimp only
  rw [if_pos hle]
  refine ⟨?_, ?_, rfl, ?_, ?_⟩
  · show (damagePlayer g.player).health = g.player.health - 25
    unfold damagePlayer
    dsimp only
    omega
  · show (damagePlayer g.player).health = 0
    unfold damagePlayer
    dsimp only
    omega
  · intro hgt
    show (if g.score > g.highScore then g.score else g.highScore) = g.score
    rw [if_pos hgt]
  · intro hng
    show (if g.score > g.highScore then g.score else g.highScore) = g.highScore
    rw [if_neg hng]

/-- Witness for C4: at `lowHealthGame` the hit is fatal and the high score
is taken from the running score. -/
theorem fatal_hit_witness :
    (checkCollisions rngZero lowHealthGame).player.health = 0 ∧
    (checkCollisions rngZero lowHealthGame).gameState = Phase.gameOver ∧
    (checkCollisions rngZero lowHealthGame).highScore = lowHealthGame.score := by
  have h := fatal_hit rngZero lowHealthGame rfl rfl
    (by intro hc; exact Option.noConfusion hc.2)
    (by with_unfolding_all decide)
  exact ⟨h.2.1, h.2.2.1, h.2.2.2.1 (by norm_num [lowHealthGame, initialGame])⟩

/-- C6: on a collection frame (not invulnerable, no obstacle overlap) where
exactly one uncollected overlapping power-up exists, collecting it
unconditionally overwrites the active slot's kind with the collected kind and
resets the remaining time to the full 10000 ms duration, whatever power-up
was active and however much of its time remained. -/
theorem powerup_overwrite (rng : Rng) (g : Game) (pu : PowerUp)
    (_hact : g.player.powerUpActive = true)
    (hi : g.player.isInvulnerable = false)
    (ho : g.obstacles.find? (obstacleHit (playerRect g.player)) = none)
    (hone : g.powerUps.filter (puTake (playerRect g.player)) = [pu]) :
    (checkCollisions rng g).player.powerUpActive = true ∧
    (checkCollisions rng g).player.powerUpType = some pu.type ∧
    (checkCollisions rng g).player.powerUpTimer = 10000 := by
  have hcc : checkCollisions rng g = collectPhase rng g := by
    unfold checkCollisions
    rw [hi]
    simp only [Bool.false_eq_true, if_false, ho]
  rw [hcc, collectPhase_player, collectCoinsGo_powerUps, hone]
  simp [applyPowerUpTo]

/-- Witness for C6: collecting a shield while a `speed` power-up still has
1234 ms left overwrites kind and timer. -/
theorem powerup_overwrite_witness :
    (checkCollisions rngZero activeSpeedGame).player.powerUpActive = true ∧
    (checkCollisions rngZero activeSpeedGame).player.powerUpType = some shieldPickup.type ∧
    (checkCollisions rngZero activeSpeedGame).player.powerUpTimer = 10000 :=
  powerup_overwrite rngZero activeSpeedGame shieldPickup rfl rfl rfl
    (by with_unfolding_all decide)

/-- C7: collection is idempotent. On a frame with no obstacle overlap, if
every coin and power-up overlapping the player is already collected, the
collision pass is a complete no-op: no coin value is added, the player is
unchanged, no particle burst is emitted — the state is returned intact. -/
theorem collected_idempotent (rng : Rng) (g : Game)
    (ho : g.obstacles.find? (obstacleHit (playerRect g.player)) = none)
    (hc : ∀ c ∈ g.gameCoins, coinHit (playerRect g.player) c = true → c.collected = true)
    (hu : ∀ u ∈ g.powerUps, powerUpHit (playerRect g.player) u = true → u.collected = true) :
    checkCollisions rng g = g := by
  have hcs : ∀ c ∈ g.gameCoins, coinTake (playerRect g.player) c = false := by
    intro c hm
    unfold coinTake
    cases hhit : coinHit (playerRect g.player) c
    · simp
    · simp [hc c hm hhit]
  have hus : ∀ u ∈ g.powerUps, puTake (playerRect g.player) u = false := by
    intro u hm
    unfold puTake
    cases hhit : powerUpHit (playerRect g.player) u
    · simp
    · simp [hu u hm hhit]
  unfold checkCollisions
  split
  · rfl
  · rw [ho]
    unfold collectPhase
    dsimp only
    rw [collectCoinsGo_id rng _ g.gameCoins g hcs]
    rw [collectPowerUpsGo_id rng _ g.powerUps _ hus]

/-- Witness for C7: re-testing an overlapping but already-collected coin and
power-up changes nothing. -/
theorem collected_idempotent_witness :
    checkCollisions rngZero collectedGame = collectedGame :=
  collected_idempotent rngZero collectedGame rfl
    (by with_unfolding_all decide) (by with_unfolding_all decide)

/-- C5: on every reachable collision frame where the active power-up is a
shield and the player's box overlaps some obstacle, health is not reduced
and the whole pass equals a single shield particle burst at the player — in
particular at most one obstacle outcome occurs and the remaining obstacles
and the collectible scans are not processed. (Reachability supplies that a
shielded player is never invulnerable, so the burst really fires.) -/
theorem shielded_hit (rng : Rng) (g : Game) (hr : Reachable g)
    (ha : g.player.powerUpActive = true)
    (ht : g.player.powerUpType = some PowerUpType.shield)
    (ho : (g.obstacles.find? (obstacleHit (playerRect g.player))).isSome = true) :
    (checkCollisions rng g).player.health = g.player.health ∧
    checkCollisions rng g =
      createParticle rng (g.player.x + PLAYER_WIDTH / 2) g.player.y
        "hsl(195, 100%, 55%)" 10 g := by
  have hinv : g.player.isInvulnerable = false := by
    have hS := (invGame_reachable g hr).2.2.2
    cases hI : g.player.isInvulnerable
    · rfl
    · exact absurd ⟨ha, ht⟩ (hS hI)
  obtain ⟨o, ho2⟩ := Option.isSome_iff_exists.mp ho
  have h2 : checkCollisions rng g =
      createParticle rng (g.player.x + PLAYER_WIDTH / 2) g.player.y
        "hsl(195, 100%, 55%)" 10 g := by
    unfold checkCollisions
    rw [hinv]
    simp only [Bool.false_eq_true, if_false, ho2]
    unfold obstacleOutcome
    rw [if_pos ⟨ha, ht⟩]
  exact ⟨by rw [h2]; rfl, h2⟩

set_option maxRecDepth 1000000 in
/-- Witness for C5 at the concrete 162-frame shield scenario. -/
theorem shielded_hit_witness :
    (checkCollisions rngZero shieldScenario).player.health =
      shieldScenario.player.health ∧
    checkCollisions rngZero shieldScenario =
      createParticle rngZero (shieldScenario.player.x + PLAYER_WIDTH / 2)
        shieldScenario.player.y "hsl(195, 100%, 55%)" 10 shieldScenario :=
  shielded_hit rngZero shieldScenario reachable_shieldScenario
    (by with_unfolding_all decide)
    (by with_unfolding_all decide)
    (by with_unfolding_all decide)

set_option maxRecDepth 40000 in
/-- C1 counterexample: in a playing state whose player is invulnerable, an
uncollected coin and an uncollected power-up overlap the player's box, yet
the collision pass returns the state unchanged — the coin is not marked
collected, no value is added, no power-up is picked up, and no particle
burst is emitted. Coin and power-up collection are therefore not independent
of the invulnerability state: the early return on `isInvulnerable` skips
them too. -/
theorem invulnerable_skips_collection_cex :
    invulnerableGame.player.isInvulnerable = true ∧
    invulnerableGame.gameCoins = [overlapCoin] ∧
    overlapCoin.collected = false ∧
    coinHit (playerRect invulnerableGame.player) overlapCoin = true ∧
    invulnerableGame.powerUps = [shieldPickup] ∧
    shieldPickup.collected = false ∧
    powerUpHit (playerRect invulnerableGame.player) shieldPickup = true ∧
    checkCollisions rngZero invulnerableGame = invulnerableGame := by
  with_unfolding_all decide

/-- C1 (amended): coin and power-up collection run only on frames where the
player is not invulnerable and no obstacle overlaps. On such frames every
not-yet-collected coin whose pickup box overlaps the player's box is marked
collected, its stored point value is added to the coin total, and an 8-part
particle burst is emitted; likewise every overlapping uncollected power-up is
marked collected with a 12-part burst; and a coin's stored value is 1/5/10
according to its kind as assigned at spawn time. -/
theorem collection_requires_vulnerability (rng : Rng) (g : Game)
    (hi : g.player.isInvulnerable = false)
    (ho : g.obstacles.find? (obstacleHit (playerRect g.player)) = none) :
    (checkCollisions rng g).gameCoins =
      g.gameCoins.map (markCoin (playerRect g.player)) ∧
    (checkCollisions rng g).coins = g.coins +
      ((g.gameCoins.filter (coinTake (playerRect g.player))).map Coin.value).sum ∧
    (checkCollisions rng g).powerUps =
      g.powerUps.map (markPU (playerRect g.player)) ∧
    (checkCollisions rng g).particles.length = g.particles.length +
      8 * (g.gameCoins.filter (coinTake (playerRect g.player))).length +
      12 * (g.powerUps.filter (puTake (playerRect g.player))).length ∧
    (∀ (rl rt : ℚ) (g' : Game) (c : Coin), c ∈ (spawnCoin rl rt g').gameCoins →
      c ∈ g'.gameCoins ∨ c.value =
        (if c.type = CoinType.normal then 1
         else if c.type = CoinType.gold then 5 else 10)) := by
  have hcc : checkCollisions rng g = collectPhase rng g := by
    unfold checkCollisions
    rw [hi]
    simp only [Bool.false_eq_true, if_false, ho]
  rw [hcc]
  unfold collectPhase
  dsimp only
  refine ⟨?_, ?_, ?_, ?_, ?_⟩
  · simp only [collectPowerUpsGo_gameCoins, collectCoinsGo_snd]
  · simp only [collectPowerUpsGo_coins, collectCoinsGo_coins]
  · simp only [collectPowerUpsGo_snd, collectCoinsGo_powerUps]
  · simp only [collectPowerUpsGo_particles_length, collectCoinsGo_particles_length,
      collectCoinsGo_powerUps]
  · intro rl rt g' c hm
    unfold spawnCoin at hm
    dsimp only at hm
    rw [List.mem_append] at hm
    cases hm with
    | inl h => exact Or.inl h
    | inr h =>
      right
      rw [List.mem_singleton] at h
      subst h
      rfl

/-- Witness for C1 (amended): with the same overlapping coin and power-up
but a vulnerable player, the frame collects them. -/
theorem collection_requires_vulnerability_witness :
    (checkCollisions rngZero vulnerableGame).gameCoins =
      vulnerableGame.gameCoins.map (markCoin (playerRect vulnerableGame.player)) ∧
    (checkCollisions rngZero vulnerableGame).coins = vulnerableGame.coins +
      ((vulnerableGame.gameCoins.filter
        (coinTake (playerRect vulnerableGame.player))).map Coin.value).sum := by
  have h := collection_requires_vulnerability rngZero vulnerableGame rfl rfl
  exact ⟨h.1, h.2.1⟩

set_option maxRecDepth 1000000 in
/-- C3: whenever a playing frame advances the scroll-distance accumulator to
an exact multiple of the 100-unit obstacle interval, exactly one new obstacle
is appended after the survivors of the advance/prune pass, with a lane in
`{0,1,2}` and `y` at the 50-unit spawn origin; and concretely, a fresh
session spawns nothing for its first 49 frames and on frame 50 — where the
accumulator first reaches 300, an exact multiple of 100 — holds exactly one
obstacle, at a valid lane and the spawn origin. -/
theorem obstacle_spawn_cadence :
    (∀ (rng : Rng) (g : Game), RngValid rng → g.gameState = Phase.playing →
      (g.distance + GAME_SPEED) % 100 = 0 →
      ∃ ob : Obstacle,
        (gameLoop rng g).obstacles =
          ((g.obstacles.map moveObstacle).filter keepObstacle) ++ [ob] ∧
        ob.lane < 3 ∧ ob.y = 50) ∧
    (∀ n, n < 50 → (runTicks schedZero n startedGame).obstacles = []) ∧
    (runTicks schedZero 50 startedGame).distance = 300 ∧ 300 % 100 = 0 ∧
    (runTicks schedZero 50 startedGame).obstacles.length = 1 ∧
    (∀ ob ∈ (runTicks schedZero 50 startedGame).obstacles,
      ob.lane < 3 ∧ ob.y = 50) := by
  refine ⟨?_, ?_, ?_, ?_, ?_, ?_⟩
  · intro rng g hv hgs hmod
    unfold gameLoop
    rw [if_pos hgs]
    rw [checkCollisions_obstacles, scorePhase_obstacles]
    exact spawnPhase_obstacles_hit rng
      (moveEntities { g with player := physicsUpdate g.player
                           , frameCount := g.frameCount + 1 }) hv hmod
  · with_unfolding_all decide
  · with_unfolding_all decide
  · with_unfolding_all decide
  · with_unfolding_all decide
  · with_unfolding_all decide

set_option maxRecDepth 1000000 in
/-- Witness for C3's quantified component at the concrete 49-frame state,
whose next frame advances the accumulator to exactly 300. -/
theorem obstacle_spawn_cadence_witness :
    ∃ ob : Obstacle,
      (gameLoop rngZero (runTicks schedZero 49 startedGame)).obstacles =
        (((runTicks schedZero 49 startedGame).obstacles.map moveObstacle).filter
          keepObstacle) ++ [ob] ∧
      ob.lane < 3 ∧ ob.y = 50 :=
  obstacle_spawn_cadence.1 rngZero (runTicks schedZero 49 startedGame)
    rngZero_valid (by with_unfolding_all decide) (by with_unfolding_all decide)
